import Mathlib

/-!
Shallow embedding of the query/filter engine of `nrrdbook`
(`src/nrrdbook/nrrdbook.py`, method `_perform_search` and its helpers
`_compare_dates`, `_lowered_or_none`, `_parse_contact`).

Strings are modelled by Lean `String` (in this toolchain a wrapper around
`List Char`), Python `str.split`, `str.strip`, `str.lower`, substring
containment (`in`) and `re.sub(r'\D', '', s)` are modelled by explicit
character-list operations below.  A Python `datetime` is modelled by its
year/month/day fields (the only components the engine renders).
-/

namespace Nrrdbook

/-- Python `str.lower` (per-character lowercasing). -/
def pyLower (s : String) : String := ⟨s.data.map Char.toLower⟩

/-- Splitting of a character list on a single separator character,
    with Python `str.split(sep)` semantics: `"".split(sep) == [""]`,
    adjacent separators produce empty pieces. -/
def splitList (sep : Char) : List Char → List (List Char)
  | [] => [[]]
  | c :: cs =>
      if c = sep then [] :: splitList sep cs
      else
        match splitList sep cs with
        | [] => [[c]]
        | t :: ts => (c :: t) :: ts

/-- Python `s.split(sep)` for a one-character separator. -/
def pySplit (sep : Char) (s : String) : List String :=
  (splitList sep s.data).map (fun l => ⟨l⟩)

/-- Python `str.strip()` (whitespace removed from both ends). -/
def pyStrip (s : String) : String :=
  ⟨((s.data.dropWhile Char.isWhitespace).reverse.dropWhile
      Char.isWhitespace).reverse⟩

/-- Python substring containment `needle in hay`. -/
def pyIn (needle hay : String) : Bool :=
  decide (needle.data <:+: hay.data)

/-- Python `re.sub(r'\D', '', s)`: keep only the digit characters. -/
def stripNonDigits (s : String) : String := ⟨s.data.filter Char.isDigit⟩

/-- Left-pad a number with zeroes to a given width (the behaviour of
    `strftime` `%Y`/`%m`/`%d` fields). -/
def pad (w n : Nat) : String :=
  let s := toString n
  ⟨List.replicate (w - s.length) '0' ++ s.data⟩

/-- The year/month/day of a Python `datetime` (the only components
    `_compare_dates` renders). -/
structure Timestamp where
  year : Nat
  month : Nat
  day : Nat
deriving DecidableEq, Repr

/-- First argument of `_compare_dates`: a string, or any non-string
    value (the `isinstance(dtstr, str)` check). -/
inductive DateQ where
  | str (s : String)
  | nonstr
deriving DecidableEq, Repr

/-- Second argument of `_compare_dates`: a `datetime`, or any
    non-datetime value (the `isinstance(dtobj, datetime)` check). -/
inductive DateV where
  | ts (t : Timestamp)
  | nonts
deriving DecidableEq, Repr

/-- `strftime(dtobj, "%Y-%m-%d")`. -/
def fmtYmd (t : Timestamp) : String :=
  pad 4 t.year ++ "-" ++ pad 2 t.month ++ "-" ++ pad 2 t.day

/-- `strftime(dtobj, "%Y-%m")`. -/
def fmtYm (t : Timestamp) : String := pad 4 t.year ++ "-" ++ pad 2 t.month

/-- `strftime(dtobj, "%m-%d")`. -/
def fmtMd (t : Timestamp) : String := pad 2 t.month ++ "-" ++ pad 2 t.day

/-- `strftime(dtobj, "%Y")`. -/
def fmtY (t : Timestamp) : String := pad 4 t.year

/-- `strftime(dtobj, "%m")`. -/
def fmtM (t : Timestamp) : String := pad 2 t.month

/-- The comparison string `cpstr` built by `_compare_dates`
    (lines 761-772): the timestamp rendered in the format dispatched on
    the query string's length, or the empty string. -/
def cpstrOf (n : Nat) (t : Timestamp) : String :=
  if n = 10 then fmtYmd t
  else if n = 7 then fmtYm t
  else if n = 5 then fmtMd t
  else if n = 4 then fmtY t
  else if n = 2 then fmtM t
  else ""

/-- `_compare_dates` (nrrdbook.py lines 746-774): length-dispatched
    rendering of the timestamp, compared for string equality; `False`
    unless the query is a string and the value a `datetime`. -/
def compare_dates : DateQ → DateV → Bool
  | .str dtstr, .ts dtobj => dtstr == cpstrOf dtstr.length dtobj
  | _, _ => false

/-- An entry of `contact['emails']` (only the key the engine reads). -/
structure EmailEntry where
  email : Option String
deriving DecidableEq, Repr

/-- An entry of `contact['phones']` (only the key the engine reads). -/
structure PhoneEntry where
  number : Option String
deriving DecidableEq, Repr

/-- An entry of `contact['addresses']` (the keys the engine reads). -/
structure AddressEntry where
  address1 : Option String
  address2 : Option String
  city : Option String
  state : Option String
  zipcode : Option String
  country : Option String
deriving DecidableEq, Repr

/-- The fields of `_parse_contact`'s result that `_perform_search`
    reads.  `none` models Python `None`; an empty string or empty list
    is falsy exactly as in Python.  `birthday`/`anniversary` are the
    output of `_datetime_or_none`: a `datetime` or `None`. -/
structure Contact where
  «alias» : Option String := none
  display : Option String := none
  tags : List String := []
  birthday : Option Timestamp := none
  anniversary : Option Timestamp := none
  emails : List EmailEntry := []
  phones : List PhoneEntry := []
  addresses : List AddressEntry := []
deriving DecidableEq, Repr

/-- Python truthiness of an optional string: `None` and `""` are falsy. -/
def tv : Option String → Option String
  | none => none
  | some s => if s = "" then none else some s

/-- A parsed clause dict, as an association list in insertion order.
    `dict(...)` built from a generator keeps the last binding of a
    duplicated key, so lookup prefers later entries. -/
abbrev Criteria := List (String × String)

/-- `d.get(key)` on the dict built from the pair list (last binding of
    a key wins, as in a Python dict comprehension). -/
def dget : Criteria → String → Option String
  | [], _ => none
  | p :: rest, key =>
      match dget rest key with
      | some w => some w
      | none => if p.1 = key then some p.2 else none

/-- `d.get(key)` followed by the truthiness test the engine applies
    (`if s_uid:` etc.): a missing key and an empty value behave alike. -/
def tg (m : Criteria) (key : String) : Option String := tv (dget m key)

/-- `_lowered_or_none` (lines 318-336) applied to `entry.get('email')`:
    falsy input gives `None`, otherwise the lowercased string. -/
def loweredOrNone : Option String → Option String
  | none => none
  | some s => if s = "" then none else some (pyLower s)

/-- The semicolon-joined address string built in both search loops
    (lines 921-941 and 1048-1069): each truthy component followed by
    `";"`, falsy components skipped. -/
def addrJoin (e : AddressEntry) : String :=
  [e.address1, e.address2, e.city, e.state, e.zipcode,
   e.country].foldl
    (fun acc o => match tv o with
      | some s => acc ++ s ++ ";"
      | none => acc) ""

/-- The errors `_perform_search` can produce: the handled
    invalid-expression report, and the two uncaught Python exceptions
    reachable through the phone normalization of the search clause
    (`x_phone` referenced before assignment / `re.sub` on `None`). -/
inductive PyErr where
  | invalidExpr
  | nameError
  | typeError
deriving DecidableEq, Repr

/-- The recognized criterion key tokens (`valid_criteria`,
    lines 787-797). -/
def validCriteria : List String :=
  ["uid=", "email=", "address=", "phone=", "alias=", "name=", "tags=",
   "birthday=", "anniversary="]

/-- Lines 779-785: if `'%'` occurs in the term, `term.split("%")` is
    taken and parts `[0]` and `[1]` become the (lowercased) search and
    exclude terms; otherwise the whole lowercased term is the search
    term and there is no exclude term. -/
def splitTerm (term : String) : String × Option String :=
  if term.data.contains '%' then
    let parts := pySplit '%' term
    (pyLower (parts.getD 0 ""), some (pyLower (parts.getD 1 "")))
  else (pyLower term, none)

/-- One segment of a clause: `item.split('=')` must produce exactly a
    key and a value (the tuple unpacking raises `ValueError`
    otherwise), both stripped. -/
def parseSeg (item : String) : Except PyErr (String × String) :=
  match pySplit '=' item with
  | [k, v] => .ok (pyStrip k, pyStrip v)
  | _ => .error .invalidExpr

/-- The dict comprehension over the comma-separated segments of a
    clause (lines 809-811 / 830-832). -/
def parseSegs : List String → Except PyErr Criteria
  | [] => .ok []
  | item :: rest =>
      match parseSeg item with
      | .error e => .error e
      | .ok p =>
          match parseSegs rest with
          | .error e => .error e
          | .ok ps => .ok (p :: ps)

/-- Parsing of the search clause (lines 800-820): empty → no criteria,
    literal `any` → no criteria, no recognized key token → implicit
    name criterion, otherwise the key=value dict (or
    `InvalidExpression`). -/
def parseSearchClause (searchterm : String) : Except PyErr (Option Criteria) :=
  if searchterm = "" then .ok none
  else if searchterm = "any" then .ok none
  else if !(validCriteria.any (fun k => pyIn k searchterm)) then
    .ok (some [("name", pyStrip searchterm)])
  else (parseSegs (pySplit ',' searchterm)).map some

/-- Parsing of the exclude clause (lines 823-841): absent or empty → no
    criteria, no recognized key token → implicit name criterion,
    otherwise the key=value dict (or `InvalidExpression`). -/
def parseExcludeClause : Option String → Except PyErr (Option Criteria)
  | none => .ok none
  | some excludeterm =>
      if excludeterm = "" then .ok none
      else if !(validCriteria.any (fun k => pyIn k excludeterm)) then
        .ok (some [("name", pyStrip excludeterm)])
      else (parseSegs (pySplit ',' excludeterm)).map some

/-- The value of the local variable `x_phone` after the exclude block:
    never assigned when the block did not run, else `None`, the
    untouched falsy string `""`, or the nonempty digit string. -/
inductive XPh where
  | unbound
  | noneVal
  | strVal (s : String)
deriving DecidableEq, Repr

/-- Lines 857-861 (and the absence of the exclude block): the state of
    `x_phone` after exclude-side normalization. -/
def xPhoneState : Option Criteria → XPh
  | none => .unbound
  | some x =>
      match dget x "phone" with
      | none => .noneVal
      | some v =>
          if v = "" then .strVal ""
          else
            let d := stripNonDigits v
            if d = "" then .noneVal else .strVal d

/-- The phone pattern the exclude loop actually uses: `x_phone` when it
    is a truthy string. -/
def xPhonePattern (x : Criteria) : Option String :=
  match xPhoneState (some x) with
  | .strVal d => if d = "" then none else some d
  | _ => none

/-- Lines 962-966: the search-side phone normalization.  When the
    search clause has a truthy phone value, the code strips the digits
    of `x_phone` — the *exclude* clause's variable — which raises
    `UnboundLocalError` when no exclude block ran and `TypeError` when
    `x_phone` is `None`. -/
def phoneFromState : XPh → Except PyErr (Option String)
  | .unbound => .error .nameError
  | .noneVal => .error .typeError
  | .strVal t =>
      let d := stripNonDigits t
      .ok (if d = "" then none else some d)

/-- The value of `s_phone` entering the search loop (or the uncaught
    exception raised computing it). -/
def sPhoneNorm (xst : XPh) (s : Criteria) : Except PyErr (Option String) :=
  match tg s "phone" with
  | none => .ok none
  | some _ => phoneFromState xst

/-- Search loop, `uid` criterion (lines 973-975). -/
def sFailUid (q : Option String) (uid : String) : Bool :=
  match q with
  | some v => v != uid
  | none => false

/-- Search loop, `alias` criterion (lines 976-981). -/
def sFailAlias (q : Option String) (c : Contact) : Bool :=
  match q with
  | some v =>
      match tv c.«alias» with
      | some a => v != a
      | none => true
  | none => false

/-- Search loop, `name` criterion (lines 983-988). -/
def sFailName (q : Option String) (c : Contact) : Bool :=
  match q with
  | some v =>
      match tv c.display with
      | some d => !(pyIn v (pyLower d))
      | none => true
  | none => false

/-- Search loop, `tags` criterion (lines 993-1002): the value was split
    on `+`; any candidate tag present in the record's tags keeps it. -/
def sFailTags (q : Option String) (c : Contact) : Bool :=
  match q with
  | some v =>
      if c.tags.isEmpty then true
      else !((pySplit '+' v).any (fun t => c.tags.contains t))
  | none => false

/-- Search loop, `birthday`/`anniversary` criterion
    (lines 1004-1018). -/
def sFailDate (q : Option String) (d : Option Timestamp) : Bool :=
  match q with
  | some v =>
      match d with
      | some t => !(compare_dates (.str v) (.ts t))
      | none => true
  | none => false

/-- Search loop, `email` criterion (lines 1020-1032). -/
def sFailEmail (q : Option String) (c : Contact) : Bool :=
  match q with
  | some v =>
      if c.emails.isEmpty then true
      else !(c.emails.any (fun e =>
        match loweredOrNone e.email with
        | some le => pyIn v le
        | none => false))
  | none => false

/-- Search loop, `phone` criterion (lines 1034-1046), applied to the
    already-normalized `s_phone`. -/
def sFailPhone (q : Option String) (c : Contact) : Bool :=
  match q with
  | some v =>
      if c.phones.isEmpty then true
      else !(c.phones.any (fun e =>
        match tv e.number with
        | some n => pyIn v (stripNonDigits n)
        | none => false))
  | none => false

/-- Search loop, `address` criterion (lines 1048-1075). -/
def sFailAddr (q : Option String) (c : Contact) : Bool :=
  match q with
  | some v =>
      if c.addresses.isEmpty then true
      else !(c.addresses.any (fun e => pyIn v (pyLower (addrJoin e))))
  | none => false

/-- The body of the positive search loop (lines 970-1078): the record
    is appended to `not_match` iff any evaluated criterion fails. -/
def sRemove (s : Criteria) (sp : Option String) (uid : String)
    (c : Contact) : Bool :=
  sFailUid (tg s "uid") uid ||
  sFailAlias (tg s "alias") c ||
  sFailName (tg s "name") c ||
  sFailTags (tg s "tags") c ||
  sFailDate (tg s "birthday") c.birthday ||
  sFailDate (tg s "anniversary") c.anniversary ||
  sFailEmail (tg s "email") c ||
  sFailPhone sp c ||
  sFailAddr (tg s "address") c

/-- Whether a record is kept by the positive search pass for a given
    criteria dict: the search-side phone normalization (which may raise)
    followed by the loop body. -/
def searchKeep (xst : XPh) (s : Criteria) (uid : String)
    (c : Contact) : Except PyErr Bool :=
  match sPhoneNorm xst s with
  | .error e => .error e
  | .ok sp => .ok (!sRemove s sp uid c)

/-- Exclude loop, `uid` criterion (lines 868-870). -/
def xHitUid (q : Option String) (uid : String) : Bool :=
  match q with
  | some v => v == uid
  | none => false

/-- Exclude loop, `alias` criterion (lines 871-874). -/
def xHitAlias (q : Option String) (c : Contact) : Bool :=
  match q with
  | some v =>
      match tv c.«alias» with
      | some a => v == a
      | none => false
  | none => false

/-- Exclude loop, `name` criterion (lines 876-879). -/
def xHitName (q : Option String) (c : Contact) : Bool :=
  match q with
  | some v =>
      match tv c.display with
      | some d => pyIn v (pyLower d)
      | none => false
  | none => false

/-- Exclude loop, `tags` criterion (lines 884-888). -/
def xHitTags (q : Option String) (c : Contact) : Bool :=
  match q with
  | some v =>
      if c.tags.isEmpty then false
      else (pySplit '+' v).any (fun t => c.tags.contains t)
  | none => false

/-- Exclude loop, `birthday`/`anniversary` criterion
    (lines 890-900). -/
def xHitDate (q : Option String) (d : Option Timestamp) : Bool :=
  match q with
  | some v =>
      match d with
      | some t => compare_dates (.str v) (.ts t)
      | none => false
  | none => false

/-- Exclude loop, `email` criterion (lines 902-909). -/
def xHitEmail (q : Option String) (c : Contact) : Bool :=
  match q with
  | some v =>
      if c.emails.isEmpty then false
      else c.emails.any (fun e =>
        match loweredOrNone e.email with
        | some le => pyIn v le
        | none => false)
  | none => false

/-- Exclude loop, `phone` criterion (lines 911-919), applied to the
    normalized `x_phone`. -/
def xHitPhone (q : Option String) (c : Contact) : Bool :=
  match q with
  | some v =>
      if c.phones.isEmpty then false
      else c.phones.any (fun e =>
        match tv e.number with
        | some n => pyIn v (stripNonDigits n)
        | none => false)
  | none => false

/-- Exclude loop, `address` criterion (lines 921-943). -/
def xHitAddr (q : Option String) (c : Contact) : Bool :=
  match q with
  | some v =>
      if c.addresses.isEmpty then false
      else c.addresses.any (fun e => pyIn v (pyLower (addrJoin e)))
  | none => false

/-- The body of the exclude loop (lines 865-945): the record is marked
    for removal iff any exclude criterion matches. -/
def xRemove (x : Criteria) (uid : String) (c : Contact) : Bool :=
  xHitUid (tg x "uid") uid ||
  xHitAlias (tg x "alias") c ||
  xHitName (tg x "name") c ||
  xHitTags (tg x "tags") c ||
  xHitDate (tg x "birthday") c.birthday ||
  xHitDate (tg x "anniversary") c.anniversary ||
  xHitEmail (tg x "email") c ||
  xHitPhone (xPhonePattern x) c ||
  xHitAddr (tg x "address") c

/-- A record with no data, used as the (unreachable) result of looking
    up a uid that is not a key of the snapshot: in the source every uid
    handed to `self.contacts[uid]` came from the snapshot's own keys,
    so the `KeyError` branch cannot occur. -/
def emptyContact : Contact := {}

/-- `self._parse_contact(uid)`: the contact stored under a uid of the
    snapshot (first matching key; a snapshot is a dict, so keys are
    unique). -/
def cget (snap : List (String × Contact)) (uid : String) : Contact :=
  match snap.find? (fun p => p.1 == uid) with
  | some p => p.2
  | none => emptyContact

/-- `_perform_search` (lines 724-1084) over an immutable snapshot,
    given as the dict's key/value pairs in iteration order.  Returns
    the surviving uids in order, or the error the call signals
    (`InvalidExpression` from clause parsing) or raises (the uncaught
    exceptions of the search-side phone normalization). -/
def performSearch (term : String) (snap : List (String × Contact)) :
    Except PyErr (List String) :=
  let st := splitTerm term
  match parseSearchClause st.1 with
  | .error e => .error e
  | .ok search =>
    match parseExcludeClause st.2 with
    | .error e => .error e
    | .ok exclude =>
      let this0 : List String := snap.map Prod.fst
      let excludeList : List String :=
        match exclude with
        | none => []
        | some x => this0.filter (fun uid => xRemove x uid (cget snap uid))
      let this1 := this0.diff excludeList
      match search with
      | none => .ok this1
      | some s =>
          match sPhoneNorm (xPhoneState exclude) s with
          | .error e => .error e
          | .ok sp =>
              let notMatch :=
                this1.filter (fun uid => sRemove s sp uid (cget snap uid))
              .ok (this1.diff notMatch)

/-- The date-rendering table of the specification (§4.1), stated
    independently of `_compare_dates`: the comparison format is selected
    purely by the query length, and lengths other than the five listed
    yield no rendering at all. -/
def specDateRender (n : Nat) (t : Timestamp) : Option String :=
  if n = 10 then some (fmtYmd t)
  else if n = 7 then some (fmtYm t)
  else if n = 5 then some (fmtMd t)
  else if n = 4 then some (fmtY t)
  else if n = 2 then some (fmtM t)
  else none

/-! ### Helper lemmas -/

theorem tv_some_empty : tv (some "") = none := rfl

theorem tg_single_ne {a k : String} (h : a ≠ k) (x : String) :
    tg [(a, x)] k = none := by
  simp [tg, dget, h, tv]

theorem tg_single_self (a x : String) : tg [(a, x)] a = tv (some x) := by
  simp [tg, dget]

theorem tg_pair_eq (a b x y k : String) :
    tg [(a, x), (b, y)] k =
      if b = k then tg [(b, y)] k else tg [(a, x)] k := by
  by_cases hbk : b = k <;> simp [tg, dget, hbk]

theorem crit_pair {a b : String} (x y : String) (k : String)
    (f : Option String → Bool) (hf : f none = false) (hab : a ≠ b) :
    f (tg [(a, x), (b, y)] k) =
      (f (tg [(a, x)] k) || f (tg [(b, y)] k)) := by
  rw [tg_pair_eq]
  by_cases hbk : b = k
  · have hak : a ≠ k := fun h => hab (h.trans hbk.symm)
    rw [if_pos hbk, tg_single_ne hak, hf, Bool.false_or]
  · rw [if_neg hbk, tg_single_ne hbk, hf, Bool.or_false]

theorem tg_cons_empty (k : String) (rest : Criteria) (key : String) :
    tg ((k, "") :: rest) key = tg rest key := by
  have hstep : dget ((k, "") :: rest) key =
      match dget rest key with
      | some w => some w
      | none => if k = key then some "" else none := rfl
  unfold tg
  rw [hstep]
  cases hd : dget rest key with
  | some w => rfl
  | none => by_cases hk : k = key <;> simp [hk, tv]

theorem diff_filter_self {α : Type} [DecidableEq α] (l : List α)
    (p : α → Bool) :
    l.diff (l.filter p) = l.filter (fun a => !(p a)) := by
  induction l with
  | nil => rfl
  | cons c t ih =>
      by_cases hc : p c
      · rw [show List.filter p (c :: t) = c :: List.filter p t from by
            simp [hc]]
        rw [List.diff_cons, List.erase_cons_head, ih]
        simp [hc]
      · rw [show List.filter p (c :: t) = List.filter p t from by
            simp [hc]]
        have hmem : c ∉ t.filter p := fun hm =>
          hc (List.mem_filter.mp hm).2
        rw [List.cons_diff_of_not_mem hmem, ih]
        simp [hc]

theorem splitList_of_not_mem {sep : Char} {u : List Char}
    (h : sep ∉ u) : splitList sep u = [u] := by
  induction u with
  | nil => rfl
  | cons c cs ih =>
      have hc : c ≠ sep := fun hcs => h (hcs ▸ List.mem_cons_self c cs)
      have hcs : sep ∉ cs := fun hm => h (List.mem_cons_of_mem c hm)
      unfold splitList
      rw [if_neg hc, ih hcs]

theorem splitList_cons (sep c : Char) (cs : List Char) :
    splitList sep (c :: cs) =
      if c = sep then [] :: splitList sep cs
      else
        match splitList sep cs with
        | [] => [[c]]
        | t :: ts => (c :: t) :: ts := by
  rw [splitList]

theorem splitList_append_sep {sep : Char} {u : List Char}
    (v : List Char) (h : sep ∉ u) :
    splitList sep (u ++ sep :: v) = u :: splitList sep v := by
  induction u with
  | nil =>
      show splitList sep (sep :: v) = [] :: splitList sep v
      rw [splitList_cons, if_pos rfl]
  | cons c cs ih =>
      have hc : c ≠ sep := fun hcs => h (hcs ▸ List.mem_cons_self c cs)
      have hcs : sep ∉ cs := fun hm => h (List.mem_cons_of_mem c hm)
      show splitList sep (c :: (cs ++ sep :: v)) = (c :: cs) :: splitList sep v
      rw [splitList_cons, if_neg hc, ih hcs]

/-! ### Claims -/

/-- C1: the birthday/anniversary criterion matches iff the timestamp,
    rendered in the format selected purely by the query's length
    (10 → YYYY-MM-DD, 7 → YYYY-MM, 5 → MM-DD, 4 → YYYY, 2 → MM),
    equals the query string; any other length matches nothing, a
    non-string query or non-timestamp value never matches, and within
    the search pass the criterion's verdict is exactly `_compare_dates`
    on the record's stored timestamp.  A birthday 2021-05-03 matches
    the queries 05-03, 2021 and 2021-05-03 but not 2021-5-3.  (A query
    of length 0 cannot occur: an empty criterion value is falsy and the
    criterion is dropped before `_compare_dates` is ever called.) -/
theorem c1_date_precision :
    (∀ (q : String) (t : Timestamp), q ≠ "" →
      (compare_dates (.str q) (.ts t) = true ↔
        specDateRender q.length t = some q)) ∧
    (∀ v : DateV, compare_dates .nonstr v = false) ∧
    (∀ q : DateQ, compare_dates q .nonts = false) ∧
    (∀ (q : String) (xst : XPh) (uid : String) (c : Contact), q ≠ "" →
      searchKeep xst [("birthday", q)] uid c =
        .ok (match c.birthday with
             | some t => compare_dates (.str q) (.ts t)
             | none => false)) ∧
    (compare_dates (.str "05-03") (.ts ⟨2021, 5, 3⟩) = true ∧
     compare_dates (.str "2021") (.ts ⟨2021, 5, 3⟩) = true ∧
     compare_dates (.str "2021-05-03") (.ts ⟨2021, 5, 3⟩) = true ∧
     compare_dates (.str "2021-5-3") (.ts ⟨2021, 5, 3⟩) = false) := by
  refine ⟨?_, fun v => by cases v <;> rfl, fun q => by cases q <;> rfl,
    ?_, by decide⟩
  · intro q t hq
    have hiff : ∀ s : String,
        ((q == s) = true ↔ (some s = some q : Prop)) := fun s => by
      rw [beq_iff_eq, Option.some.injEq]
      exact eq_comm
    show (q == cpstrOf q.length t) = true ↔ specDateRender q.length t = some q
    unfold cpstrOf specDateRender
    by_cases h10 : q.length = 10
    · rw [if_pos h10, if_pos h10]; exact hiff _
    · rw [if_neg h10, if_neg h10]
      by_cases h7 : q.length = 7
      · rw [if_pos h7, if_pos h7]; exact hiff _
      · rw [if_neg h7, if_neg h7]
        by_cases h5 : q.length = 5
        · rw [if_pos h5, if_pos h5]; exact hiff _
        · rw [if_neg h5, if_neg h5]
          by_cases h4 : q.length = 4
          · rw [if_pos h4, if_pos h4]; exact hiff _
          · rw [if_neg h4, if_neg h4]
            by_cases h2 : q.length = 2
            · rw [if_pos h2, if_pos h2]; exact hiff _
            · rw [if_neg h2, if_neg h2]
              constructor
              · intro hcontra
                exact absurd (beq_iff_eq.mp hcontra) hq
              · intro hcontra
                exact absurd hcontra (Option.noConfusion)
  · intro q xst uid c hq
    have hphone : tg [("birthday", q)] "phone" = none :=
      tg_single_ne (by decide) q
    have hbday : tg [("birthday", q)] "birthday" = some q := by
      rw [tg_single_self]
      simp [tv, hq]
    unfold searchKeep sPhoneNorm
    rw [hphone]
    unfold sRemove
    rw [hbday, tg_single_ne (by decide : ("birthday" : String) ≠ "uid"),
      tg_single_ne (by decide : ("birthday" : String) ≠ "alias"),
      tg_single_ne (by decide : ("birthday" : String) ≠ "name"),
      tg_single_ne (by decide : ("birthday" : String) ≠ "tags"),
      tg_single_ne (by decide : ("birthday" : String) ≠ "anniversary"),
      tg_single_ne (by decide : ("birthday" : String) ≠ "email"),
      tg_single_ne (by decide : ("birthday" : String) ≠ "address")]
    cases hb : c.birthday <;>
      simp [sFailUid, sFailAlias, sFailName, sFailTags, sFailDate,
        sFailEmail, sFailPhone, sFailAddr]

/-- C2: the claim that once the clauses have parsed the evaluation
    phase never raises is contradicted by the code: a phone criterion
    in the search clause makes lines 962-966 read the exclude clause's
    `x_phone` variable, raising `UnboundLocalError` when no exclude
    clause was supplied and `TypeError` (from `re.sub` on `None`) when
    the exclude clause has no phone criterion.  Both terms below parse
    successfully, yet evaluation fails. -/
theorem c2_evaluation_raises :
    performSearch "phone=5" [] = .error .nameError ∧
    performSearch "phone=5%name=x" [] = .error .typeError := by
  constructor <;> rfl

/-- C3: the claim that each clause's phone pattern is stripped from
    that clause's own value is contradicted by the code: for the term
    `phone=111%phone=222` the search-side pattern is the digits of the
    exclude clause's value, `222`, so a record whose only phone number
    is `111` is not returned. -/
theorem c3_phone_cross_aliasing :
    performSearch "phone=111%phone=222"
      [("u1", { phones := [{ number := some "111" }] })] = .ok [] ∧
    sPhoneNorm (xPhoneState (some [("phone", "222")]))
      [("phone", "111")] = .ok (some "222") := by
  constructor <;> rfl

/-- C7 counterexample: `term.split("%")` splits at *every* `%` and the
    code keeps only parts `[0]` and `[1]`, so for `any%bob%cat` the
    exclude clause is `bob`, not the claimed literal `bob%cat`; the
    record named `bobcat` is therefore excluded (name-substring `bob`),
    while under the claimed semantics the exclude criterion `bob%cat`
    would not match it. -/
theorem c7_counterexample :
    (splitTerm "any%bob%cat").2 = some "bob" ∧
    (("bob" : String) == "bob%cat") = false ∧
    performSearch "any%bob%cat" [("u1", { display := some "bobcat" })] =
      .ok [] := by
  exact ⟨rfl, by decide, rfl⟩

/-- C7 amended: a term containing `%` is split at every `%`; the search
    clause is the segment before the first `%` and the exclude clause
    is the segment between the first and the second `%` — any text from
    the second `%` onward is discarded, not kept as literal content. -/
theorem c7_split_every_percent (a b r : String)
    (ha : '%' ∉ a.data) (hb : '%' ∉ b.data) :
    splitTerm (a ++ "%" ++ b ++ "%" ++ r) = (pyLower a, some (pyLower b)) ∧
    splitTerm (a ++ "%" ++ b) = (pyLower a, some (pyLower b)) := by
  have hpct : ("%" : String).data = ['%'] := rfl
  constructor
  · have hdata : (a ++ "%" ++ b ++ "%" ++ r).data =
        a.data ++ '%' :: (b.data ++ '%' :: r.data) := by
      simp [String.data_append, hpct]
    have hsplit : splitList '%' (a ++ "%" ++ b ++ "%" ++ r).data =
        a.data :: b.data :: splitList '%' r.data := by
      rw [hdata, splitList_append_sep _ ha, splitList_append_sep _ hb]
    have hmem : '%' ∈ (a ++ "%" ++ b ++ "%" ++ r).data := by
      rw [hdata]
      exact List.mem_append_right _ (List.mem_cons_self _ _)
    unfold splitTerm
    rw [if_pos (by simp [hdata])]
    unfold pySplit
    rw [hsplit]
    rfl
  · have hdata : (a ++ "%" ++ b).data = a.data ++ '%' :: b.data := by
      simp [String.data_append, hpct]
    have hsplit : splitList '%' (a ++ "%" ++ b).data = a.data :: [b.data] := by
      rw [hdata, splitList_append_sep _ ha, splitList_of_not_mem hb]
    have hmem : '%' ∈ (a ++ "%" ++ b).data := by
      rw [hdata]
      exact List.mem_append_right _ (List.mem_cons_self _ _)
    unfold splitTerm
    rw [if_pos (by simp [hdata])]
    unfold pySplit
    rw [hsplit]
    rfl

theorem parseSeg_error_eq {s : String} {e : PyErr}
    (h : parseSeg s = .error e) : e = .invalidExpr := by
  unfold parseSeg at h
  rcases hs : pySplit '=' s with _ | ⟨a, _ | ⟨b, _ | ⟨c, t⟩⟩⟩ <;>
    rw [hs] at h
  · exact (Except.error.inj h).symm
  · exact (Except.error.inj h).symm
  · exact Except.noConfusion h
  · exact (Except.error.inj h).symm

theorem parseSeg_bad {seg : String}
    (h : (pySplit '=' seg).length ≠ 2) :
    parseSeg seg = .error .invalidExpr := by
  unfold parseSeg
  rcases hs : pySplit '=' seg with _ | ⟨a, _ | ⟨b, _ | ⟨c, t⟩⟩⟩
  · rfl
  · rfl
  · exact absurd (by simp [hs]) h
  · rfl

theorem parseSegs_error {segs : List String} {seg : String}
    (hm : seg ∈ segs) (hbad : parseSeg seg = .error .invalidExpr) :
    parseSegs segs = .error .invalidExpr := by
  induction segs with
  | nil => cases hm
  | cons hd tl ih =>
      unfold parseSegs
      rcases List.mem_cons.mp hm with rfl | hmem
      · rw [hbad]
      · cases hhd : parseSeg hd with
        | error e => rw [parseSeg_error_eq hhd]
        | ok p => rw [ih hmem]

/-- C8: a clause with no recognized `key=` token is treated as an
    implicit name-substring criterion for the whole trimmed clause
    (no error), e.g. the bare term `tags`; a clause that does contain a
    recognized key but also a comma-separated segment that does not
    split on `=` into exactly two parts raises `InvalidExpression`,
    e.g. `tags=archive,broken`.  (The empty clause and the literal
    `any` are dispatched by the two earlier branches of the parser.) -/
theorem c8_clause_parsing :
    (∀ clause : String, clause ≠ "" → clause ≠ "any" →
       validCriteria.any (fun k => pyIn k clause) = false →
       parseSearchClause clause = .ok (some [("name", pyStrip clause)])) ∧
    parseSearchClause "tags" = .ok (some [("name", "tags")]) ∧
    (∀ clause : String, clause ≠ "" → clause ≠ "any" →
       validCriteria.any (fun k => pyIn k clause) = true →
       (∃ seg ∈ pySplit ',' clause, (pySplit '=' seg).length ≠ 2) →
       parseSearchClause clause = .error .invalidExpr) ∧
    parseSearchClause "tags=archive,broken" = .error .invalidExpr := by
  refine ⟨?_, rfl, ?_, rfl⟩
  · intro clause h1 h2 h3
    unfold parseSearchClause
    rw [if_neg h1, if_neg h2, if_pos (by rw [h3]; rfl)]
  · intro clause h1 h2 h3 hseg
    obtain ⟨seg, hmem, hbad⟩ := hseg
    unfold parseSearchClause
    rw [if_neg h1, if_neg h2, if_neg (by rw [h3]; simp)]
    rw [parseSegs_error hmem (parseSeg_bad hbad)]
    rfl

theorem xPhoneState_some (m : Criteria) :
    xPhoneState (some m) =
      match dget m "phone" with
      | none => .noneVal
      | some v =>
          if v = "" then .strVal ""
          else
            if stripNonDigits v = "" then XPh.noneVal
            else .strVal (stripNonDigits v) := rfl

theorem xPhonePattern_cons_empty (k : String) (rest : Criteria) :
    xPhonePattern ((k, "") :: rest) = xPhonePattern rest := by
  have hstep : dget ((k, "") :: rest) "phone" =
      match dget rest "phone" with
      | some w => some w
      | none => if k = "phone" then some "" else none := rfl
  unfold xPhonePattern
  rw [xPhoneState_some, xPhoneState_some, hstep]
  cases hd : dget rest "phone" with
  | some w => rfl
  | none => by_cases hk : k = "phone" <;> simp [hk]

/-- C9 (implicit): a criterion that parses to an empty-string value is
    silently ignored: prepending it to either clause's criteria map
    changes neither the search pass's keep verdict (including its phone
    normalization) nor the exclude pass's removal verdict, and the
    whole-pipeline query `name=` (whose single criterion has an empty
    value) keeps every record and does not fail. -/
theorem c9_empty_value_ignored :
    (∀ (k : String) (rest : Criteria) (xst : XPh) (uid : String)
        (c : Contact),
       searchKeep xst ((k, "") :: rest) uid c = searchKeep xst rest uid c ∧
       xRemove ((k, "") :: rest) uid c = xRemove rest uid c) ∧
    (∀ snap : List (String × Contact),
       performSearch "name=" snap = .ok (snap.map Prod.fst)) := by
  constructor
  · intro k rest xst uid c
    constructor
    · simp only [searchKeep, sPhoneNorm, sRemove, tg_cons_empty]
    · simp only [xRemove, tg_cons_empty, xPhonePattern_cons_empty]
  · intro snap
    have hs : parseSearchClause (splitTerm "name=").1 =
        .ok (some [("name", "")]) := rfl
    have hx : parseExcludeClause (splitTerm "name=").2 = .ok none := rfl
    have hrem : ∀ uid c, sRemove [("name", "")] none uid c = false := by
      intro uid c
      simp [sRemove, tg, dget, tv, sFailUid, sFailAlias, sFailName,
        sFailTags, sFailDate, sFailEmail, sFailPhone, sFailAddr]
    have hsp : sPhoneNorm (xPhoneState none) [("name", "")] = .ok none := rfl
    simp only [performSearch, hs, hx, hsp, hrem, List.diff_nil,
      List.filter_false]

/-- C6: the search-pass tags criterion matches iff at least one of the
    `+`-joined candidate tags is among the record's tags; a record
    with tags work/friend matches `tags=work+family` but not
    `tags=family+other`, and a record with no tags fails every
    (non-empty-valued) tags criterion. -/
theorem c6_tag_or :
    (∀ v : String, v ≠ "" → ∀ (xst : XPh) (uid : String) (c : Contact),
       searchKeep xst [("tags", v)] uid c =
         .ok (!c.tags.isEmpty &&
              (pySplit '+' v).any (fun t => c.tags.contains t))) ∧
    searchKeep .unbound [("tags", "work+family")] "u"
      { tags := ["work", "friend"] } = .ok true ∧
    searchKeep .unbound [("tags", "family+other")] "u"
      { tags := ["work", "friend"] } = .ok false ∧
    (∀ v : String, v ≠ "" → ∀ (xst : XPh) (uid : String) (c : Contact),
       c.tags = [] → searchKeep xst [("tags", v)] uid c = .ok false) := by
  have main : ∀ v : String, v ≠ "" →
      ∀ (xst : XPh) (uid : String) (c : Contact),
      searchKeep xst [("tags", v)] uid c =
        .ok (!c.tags.isEmpty &&
             (pySplit '+' v).any (fun t => c.tags.contains t)) := by
    intro v hv xst uid c
    have hphone : tg [("tags", v)] "phone" = none :=
      tg_single_ne (by decide) v
    have htags : tg [("tags", v)] "tags" = some v := by
      rw [tg_single_self]
      simp [tv, hv]
    unfold searchKeep sPhoneNorm
    rw [hphone]
    unfold sRemove
    rw [htags, tg_single_ne (by decide : ("tags" : String) ≠ "uid"),
      tg_single_ne (by decide : ("tags" : String) ≠ "alias"),
      tg_single_ne (by decide : ("tags" : String) ≠ "name"),
      tg_single_ne (by decide : ("tags" : String) ≠ "birthday"),
      tg_single_ne (by decide : ("tags" : String) ≠ "anniversary"),
      tg_single_ne (by decide : ("tags" : String) ≠ "email"),
      tg_single_ne (by decide : ("tags" : String) ≠ "address")]
    cases hem : c.tags.isEmpty <;>
      simp [sFailUid, sFailAlias, sFailName, sFailTags, sFailDate,
        sFailEmail, sFailPhone, sFailAddr, hem]
  refine ⟨main, rfl, rfl, ?_⟩
  intro v hv xst uid c htags
  rw [main v hv xst uid c]
  simp [htags]

theorem or_interleave9
    (p1 p2 p3 p4 p5 p6 p7 p8 p9 q1 q2 q3 q4 q5 q6 q7 q8 q9 : Bool) :
    ((p1 || q1) || (p2 || q2) || (p3 || q3) || (p4 || q4) || (p5 || q5) ||
      (p6 || q6) || (p7 || q7) || (p8 || q8) || (p9 || q9)) =
    ((p1 || p2 || p3 || p4 || p5 || p6 || p7 || p8 || p9) ||
     (q1 || q2 || q3 || q4 || q5 || q6 || q7 || q8 || q9)) := by
  simp [Bool.or_assoc, Bool.or_comm, Bool.or_left_comm]

theorem xPhonePattern_eq_tg (m : Criteria) :
    xPhonePattern m =
      match tg m "phone" with
      | none => none
      | some v =>
          if stripNonDigits v = "" then none
          else some (stripNonDigits v) := by
  unfold xPhonePattern tg
  rw [xPhoneState_some]
  cases hd : dget m "phone" with
  | none => rfl
  | some v =>
      by_cases hv : v = ""
      · simp [hv, tv]
      · by_cases hdg : stripNonDigits v = "" <;> simp [hv, hdg, tv]

/-- C5: across exclude criteria the combination is logical OR: a
    two-key exclude map removes a record iff either singleton does;
    concretely `exclude={tags=archive, name=bob}` removes a record
    that has the tag archive or whose display name contains bob; and
    the exclusion pass also runs for a term with a leading `%` (no
    positive search clause): `%tags=archive` keeps exactly the records
    without the tag archive. -/
theorem c5_exclude_or :
    (∀ a b x y : String, a ≠ b → ∀ (uid : String) (c : Contact),
       xRemove [(a, x), (b, y)] uid c =
         (xRemove [(a, x)] uid c || xRemove [(b, y)] uid c)) ∧
    (∀ (uid : String) (c : Contact),
       xRemove [("tags", "archive"), ("name", "bob")] uid c =
         (c.tags.contains "archive" ||
          (match tv c.display with
           | some d => pyIn "bob" (pyLower d)
           | none => false))) ∧
    (∀ snap : List (String × Contact),
       performSearch "%tags=archive" snap =
         .ok ((snap.map Prod.fst).filter
           (fun uid => !(cget snap uid).tags.contains "archive"))) := by
  refine ⟨?_, ?_, ?_⟩
  · intro a b x y hab uid c
    have r1 : xHitUid (tg [(a, x), (b, y)] "uid") uid =
        (xHitUid (tg [(a, x)] "uid") uid ||
         xHitUid (tg [(b, y)] "uid") uid) :=
      crit_pair x y "uid" (fun q => xHitUid q uid) rfl hab
    have r2 : xHitAlias (tg [(a, x), (b, y)] "alias") c =
        (xHitAlias (tg [(a, x)] "alias") c ||
         xHitAlias (tg [(b, y)] "alias") c) :=
      crit_pair x y "alias" (fun q => xHitAlias q c) rfl hab
    have r3 : xHitName (tg [(a, x), (b, y)] "name") c =
        (xHitName (tg [(a, x)] "name") c ||
         xHitName (tg [(b, y)] "name") c) :=
      crit_pair x y "name" (fun q => xHitName q c) rfl hab
    have r4 : xHitTags (tg [(a, x), (b, y)] "tags") c =
        (xHitTags (tg [(a, x)] "tags") c ||
         xHitTags (tg [(b, y)] "tags") c) :=
      crit_pair x y "tags" (fun q => xHitTags q c) rfl hab
    have r5 : xHitDate (tg [(a, x), (b, y)] "birthday") c.birthday =
        (xHitDate (tg [(a, x)] "birthday") c.birthday ||
         xHitDate (tg [(b, y)] "birthday") c.birthday) :=
      crit_pair x y "birthday" (fun q => xHitDate q c.birthday) rfl hab
    have r6 : xHitDate (tg [(a, x), (b, y)] "anniversary") c.anniversary =
        (xHitDate (tg [(a, x)] "anniversary") c.anniversary ||
         xHitDate (tg [(b, y)] "anniversary") c.anniversary) :=
      crit_pair x y "anniversary" (fun q => xHitDate q c.anniversary) rfl hab
    have r7 : xHitEmail (tg [(a, x), (b, y)] "email") c =
        (xHitEmail (tg [(a, x)] "email") c ||
         xHitEmail (tg [(b, y)] "email") c) :=
      crit_pair x y "email" (fun q => xHitEmail q c) rfl hab
    have r8 : xHitAddr (tg [(a, x), (b, y)] "address") c =
        (xHitAddr (tg [(a, x)] "address") c ||
         xHitAddr (tg [(b, y)] "address") c) :=
      crit_pair x y "address" (fun q => xHitAddr q c) rfl hab
    have r9 : xHitPhone (xPhonePattern [(a, x), (b, y)]) c =
        (xHitPhone (xPhonePattern [(a, x)]) c ||
         xHitPhone (xPhonePattern [(b, y)]) c) := by
      rw [xPhonePattern_eq_tg, xPhonePattern_eq_tg, xPhonePattern_eq_tg]
      exact crit_pair x y "phone"
        (fun q => xHitPhone
          (match q with
           | none => none
           | some v =>
               if stripNonDigits v = "" then none
               else some (stripNonDigits v)) c) rfl hab
    unfold xRemove
    rw [r1, r2, r3, r4, r5, r6, r7, r8, r9]
    exact or_interleave9 _ _ _ _ _ _ _ _ _ _ _ _ _ _ _ _ _ _
  · intro uid c
    have ht : tg [("tags", "archive"), ("name", "bob")] "tags" =
        some "archive" := rfl
    have hn : tg [("tags", "archive"), ("name", "bob")] "name" =
        some "bob" := rfl
    unfold xRemove
    rw [ht, hn,
      show tg [("tags", "archive"), ("name", "bob")] "uid" = none from rfl,
      show tg [("tags", "archive"), ("name", "bob")] "alias" = none from rfl,
      show tg [("tags", "archive"), ("name", "bob")] "birthday" = none from
        rfl,
      show tg [("tags", "archive"), ("name", "bob")] "anniversary" = none
        from rfl,
      show tg [("tags", "archive"), ("name", "bob")] "email" = none from rfl,
      show tg [("tags", "archive"), ("name", "bob")] "address" = none from
        rfl,
      show xPhonePattern [("tags", "archive"), ("name", "bob")] = none from
        rfl]
    cases hct : c.tags <;>
      cases htv : tv c.display <;>
        simp [xHitUid, xHitAlias, xHitName, xHitTags, xHitDate, xHitEmail,
          xHitPhone, xHitAddr, pySplit, splitList, hct, htv,
          Bool.or_comm, Bool.or_assoc, Bool.or_left_comm]
  · intro snap
    have hs : parseSearchClause (splitTerm "%tags=archive").1 =
        .ok none := rfl
    have hx : parseExcludeClause (splitTerm "%tags=archive").2 =
        .ok (some [("tags", "archive")]) := rfl
    have hxr : ∀ uid c, xRemove [("tags", "archive")] uid c =
        c.tags.contains "archive" := by
      intro uid c
      unfold xRemove
      rw [show tg [("tags", "archive")] "tags" = some "archive" from rfl,
        show tg [("tags", "archive")] "uid" = none from rfl,
        show tg [("tags", "archive")] "alias" = none from rfl,
        show tg [("tags", "archive")] "name" = none from rfl,
        show tg [("tags", "archive")] "birthday" = none from rfl,
        show tg [("tags", "archive")] "anniversary" = none from rfl,
        show tg [("tags", "archive")] "email" = none from rfl,
        show tg [("tags", "archive")] "address" = none from rfl,
        show xPhonePattern [("tags", "archive")] = none from rfl]
      cases hct : c.tags <;>
        simp [xHitUid, xHitAlias, xHitName, xHitTags, xHitDate, xHitEmail,
          xHitPhone, xHitAddr, pySplit, splitList, hct]
    simp only [performSearch, hs, hx, hxr]
    rw [diff_filter_self]

theorem sRemove_pair {a b : String} (x y : String) (hab : a ≠ b)
    (spP sp1 sp2 : Option String)
    (hp : ∀ c : Contact,
      sFailPhone spP c = (sFailPhone sp1 c || sFailPhone sp2 c))
    (uid : String) (c : Contact) :
    sRemove [(a, x), (b, y)] spP uid c =
      (sRemove [(a, x)] sp1 uid c || sRemove [(b, y)] sp2 uid c) := by
  have r1 : sFailUid (tg [(a, x), (b, y)] "uid") uid =
      (sFailUid (tg [(a, x)] "uid") uid ||
       sFailUid (tg [(b, y)] "uid") uid) :=
    crit_pair x y "uid" (fun q => sFailUid q uid) rfl hab
  have r2 : sFailAlias (tg [(a, x), (b, y)] "alias") c =
      (sFailAlias (tg [(a, x)] "alias") c ||
       sFailAlias (tg [(b, y)] "alias") c) :=
    crit_pair x y "alias" (fun q => sFailAlias q c) rfl hab
  have r3 : sFailName (tg [(a, x), (b, y)] "name") c =
      (sFailName (tg [(a, x)] "name") c ||
       sFailName (tg [(b, y)] "name") c) :=
    crit_pair x y "name" (fun q => sFailName q c) rfl hab
  have r4 : sFailTags (tg [(a, x), (b, y)] "tags") c =
      (sFailTags (tg [(a, x)] "tags") c ||
       sFailTags (tg [(b, y)] "tags") c) :=
    crit_pair x y "tags" (fun q => sFailTags q c) rfl hab
  have r5 : sFailDate (tg [(a, x), (b, y)] "birthday") c.birthday =
      (sFailDate (tg [(a, x)] "birthday") c.birthday ||
       sFailDate (tg [(b, y)] "birthday") c.birthday) :=
    crit_pair x y "birthday" (fun q => sFailDate q c.birthday) rfl hab
  have r6 : sFailDate (tg [(a, x), (b, y)] "anniversary") c.anniversary =
      (sFailDate (tg [(a, x)] "anniversary") c.anniversary ||
       sFailDate (tg [(b, y)] "anniversary") c.anniversary) :=
    crit_pair x y "anniversary" (fun q => sFailDate q c.anniversary) rfl hab
  have r7 : sFailEmail (tg [(a, x), (b, y)] "email") c =
      (sFailEmail (tg [(a, x)] "email") c ||
       sFailEmail (tg [(b, y)] "email") c) :=
    crit_pair x y "email" (fun q => sFailEmail q c) rfl hab
  have r8 : sFailAddr (tg [(a, x), (b, y)] "address") c =
      (sFailAddr (tg [(a, x)] "address") c ||
       sFailAddr (tg [(b, y)] "address") c) :=
    crit_pair x y "address" (fun q => sFailAddr q c) rfl hab
  unfold sRemove
  rw [r1, r2, r3, r4, r5, r6, r7, r8, hp c]
  exact or_interleave9 _ _ _ _ _ _ _ _ _ _ _ _ _ _ _ _ _ _

/-- C4: distinct criterion keys in the search clause combine by
    logical AND — for a two-key criteria map the record is kept iff it
    is kept by each singleton — and a search criteria of none (the
    empty term or the literal term `any`) keeps every record. -/
theorem c4_and_property (a b x y : String) (hab : a ≠ b) (xst : XPh)
    (uid : String) (c : Contact) (k1 k2 : Bool)
    (h1 : searchKeep xst [(a, x)] uid c = .ok k1)
    (h2 : searchKeep xst [(b, y)] uid c = .ok k2) :
    searchKeep xst [(a, x), (b, y)] uid c = .ok (k1 && k2) ∧
    (∀ snap : List (String × Contact),
       performSearch "" snap = .ok (snap.map Prod.fst) ∧
       performSearch "any" snap = .ok (snap.map Prod.fst)) := by
  refine ⟨?_, fun snap => ⟨rfl, rfl⟩⟩
  unfold searchKeep sPhoneNorm at h1 h2 ⊢
  rw [tg_pair_eq a b x y "phone"]
  by_cases hbp : b = "phone"
  · rw [if_pos hbp]
    have hap : a ≠ "phone" := fun hcon => hab (hcon.trans hbp.symm)
    rw [tg_single_ne hap x] at h1
    cases hbv : tg [(b, y)] "phone" with
    | none =>
        rw [hbv] at h2
        have hk1 : (!sRemove [(a, x)] none uid c) = k1 := Except.ok.inj h1
        have hk2 : (!sRemove [(b, y)] none uid c) = k2 := Except.ok.inj h2
        show Except.ok (!sRemove [(a, x), (b, y)] none uid c) =
          Except.ok (k1 && k2)
        rw [sRemove_pair x y hab none none none (fun cc => rfl) uid c,
          Bool.not_or, hk1, hk2]
    | some v =>
        rw [hbv] at h2
        cases hpf : phoneFromState xst with
        | error e => rw [hpf] at h2; exact Except.noConfusion h2
        | ok p =>
            rw [hpf] at h2
            have hk1 : (!sRemove [(a, x)] none uid c) = k1 := Except.ok.inj h1
            have hk2 : (!sRemove [(b, y)] p uid c) = k2 := Except.ok.inj h2
            show Except.ok (!sRemove [(a, x), (b, y)] p uid c) =
              Except.ok (k1 && k2)
            rw [sRemove_pair x y hab p none p
                (fun cc => (Bool.false_or _).symm) uid c,
              Bool.not_or, hk1, hk2]
  · rw [if_neg hbp]
    rw [tg_single_ne hbp y] at h2
    have hk2 : (!sRemove [(b, y)] none uid c) = k2 := Except.ok.inj h2
    cases hav : tg [(a, x)] "phone" with
    | none =>
        rw [hav] at h1
        have hk1 : (!sRemove [(a, x)] none uid c) = k1 := Except.ok.inj h1
        show Except.ok (!sRemove [(a, x), (b, y)] none uid c) =
          Except.ok (k1 && k2)
        rw [sRemove_pair x y hab none none none (fun cc => rfl) uid c,
          Bool.not_or, hk1, hk2]
    | some v =>
        rw [hav] at h1
        cases hpf : phoneFromState xst with
        | error e => rw [hpf] at h1; exact Except.noConfusion h1
        | ok p =>
            rw [hpf] at h1
            have hk1 : (!sRemove [(a, x)] p uid c) = k1 := Except.ok.inj h1
            show Except.ok (!sRemove [(a, x), (b, y)] p uid c) =
              Except.ok (k1 && k2)
            rw [sRemove_pair x y hab p p none
                (fun cc => (Bool.or_false _).symm) uid c,
              Bool.not_or, hk1, hk2]

/-- C10 (implicit): whenever `_perform_search` returns, the returned
    uid sequence is an order-preserving subsequence of the snapshot's
    uid enumeration with no duplicates — both passes only delete
    elements. -/
theorem c10_order_preserving (term : String)
    (snap : List (String × Contact)) (res : List String)
    (hnd : (snap.map Prod.fst).Nodup)
    (h : performSearch term snap = .ok res) :
    res.Sublist (snap.map Prod.fst) ∧ res.Nodup := by
  simp only [performSearch] at h
  cases hps : parseSearchClause (splitTerm term).1 with
  | error e => rw [hps] at h; exact Except.noConfusion h
  | ok search =>
  rw [hps] at h
  cases hpx : parseExcludeClause (splitTerm term).2 with
  | error e => rw [hpx] at h; exact Except.noConfusion h
  | ok exclude =>
  rw [hpx] at h
  cases search with
  | none =>
      cases exclude with
      | none =>
          have hres : res = (snap.map Prod.fst).diff [] :=
            (Except.ok.inj h).symm
          subst hres
          exact ⟨List.diff_sublist _ _,
            hnd.sublist (List.diff_sublist _ _)⟩
      | some xx =>
          have hres : res = (snap.map Prod.fst).diff
              ((snap.map Prod.fst).filter
                (fun uid => xRemove xx uid (cget snap uid))) :=
            (Except.ok.inj h).symm
          subst hres
          exact ⟨List.diff_sublist _ _,
            hnd.sublist (List.diff_sublist _ _)⟩
  | some s =>
      cases exclude with
      | none =>
          have h' : (match sPhoneNorm (xPhoneState none) s with
              | Except.error e => Except.error e
              | Except.ok sp =>
                  Except.ok (((snap.map Prod.fst).diff []).diff
                    (((snap.map Prod.fst).diff []).filter
                      (fun uid => sRemove s sp uid (cget snap uid))))) =
              Except.ok res := h
          cases hsp : sPhoneNorm (xPhoneState none) s with
          | error e => rw [hsp] at h'; exact Except.noConfusion h'
          | ok sp =>
              rw [hsp] at h'
              have hres : res = ((snap.map Prod.fst).diff []).diff
                  (((snap.map Prod.fst).diff []).filter
                    (fun uid => sRemove s sp uid (cget snap uid))) :=
                (Except.ok.inj h').symm
              subst hres
              refine ⟨(List.diff_sublist _ _).trans (List.diff_sublist _ _),
                ?_⟩
              exact hnd.sublist
                ((List.diff_sublist _ _).trans (List.diff_sublist _ _))
      | some xx =>
          have h' : (match sPhoneNorm (xPhoneState (some xx)) s with
              | Except.error e => Except.error e
              | Except.ok sp =>
                  Except.ok (((snap.map Prod.fst).diff
                      ((snap.map Prod.fst).filter
                        (fun uid => xRemove xx uid (cget snap uid)))).diff
                    (((snap.map Prod.fst).diff
                      ((snap.map Prod.fst).filter
                        (fun uid => xRemove xx uid (cget snap uid)))).filter
                      (fun uid => sRemove s sp uid (cget snap uid))))) =
              Except.ok res := h
          cases hsp : sPhoneNorm (xPhoneState (some xx)) s with
          | error e => rw [hsp] at h'; exact Except.noConfusion h'
          | ok sp =>
              rw [hsp] at h'
              have hres : res = ((snap.map Prod.fst).diff
                  ((snap.map Prod.fst).filter
                    (fun uid => xRemove xx uid (cget snap uid)))).diff
                  (((snap.map Prod.fst).diff
                    ((snap.map Prod.fst).filter
                      (fun uid => xRemove xx uid (cget snap uid)))).filter
                    (fun uid => sRemove s sp uid (cget snap uid))) :=
                (Except.ok.inj h').symm
              subst hres
              refine ⟨(List.diff_sublist _ _).trans (List.diff_sublist _ _),
                ?_⟩
              exact hnd.sublist
                ((List.diff_sublist _ _).trans (List.diff_sublist _ _))

/-! ### Witnesses -/

/-- Witness for C1 at the concrete query `2021-05` and timestamp
    2021-05-03. -/
theorem c1_witness :
    specDateRender ("2021-05").length ⟨2021, 5, 3⟩ = some "2021-05" :=
  (c1_date_precision.1 "2021-05" ⟨2021, 5, 3⟩ (by decide)).mp (by rfl)

/-- Witness for C4 at the concrete criteria uid=u, name=x. -/
theorem c4_witness :
    searchKeep .unbound [("uid", "u"), ("name", "x")] "u"
      { display := some "ann" } = .ok (true && false) :=
  (c4_and_property "uid" "name" "u" "x" (by decide) .unbound "u"
    { display := some "ann" } true false (by rfl) (by rfl)).1

/-- Witness for C5 at the concrete criteria tags=a, name=b. -/
theorem c5_witness :
    xRemove [("tags", "a"), ("name", "b")] "u" {} =
      (xRemove [("tags", "a")] "u" {} || xRemove [("name", "b")] "u" {}) :=
  c5_exclude_or.1 "tags" "name" "a" "b" (by decide) "u" {}

/-- Witness for C6 at the concrete criterion tags=work. -/
theorem c6_witness :
    searchKeep .unbound [("tags", "work")] "u" { tags := ["work"] } =
      .ok (!({ tags := ["work"] } : Contact).tags.isEmpty &&
        (pySplit '+' "work").any
          (fun t => ({ tags := ["work"] } : Contact).tags.contains t)) :=
  c6_tag_or.1 "work" (by decide) .unbound "u" { tags := ["work"] }

/-- Witness for the amended C7 at the concrete term `a%b%c`. -/
theorem c7_witness :
    splitTerm ("a" ++ "%" ++ "b" ++ "%" ++ "c") =
      (pyLower "a", some (pyLower "b")) :=
  (c7_split_every_percent "a" "b" "c" (by decide) (by decide)).1

/-- Witness for C8 at the concrete keyless clause `zzz`. -/
theorem c8_witness :
    parseSearchClause "zzz" = .ok (some [("name", pyStrip "zzz")]) :=
  c8_clause_parsing.1 "zzz" (by decide) (by decide) (by decide)

/-- Witness for C10 at the concrete term `x` over the empty snapshot. -/
theorem c10_witness :
    List.Sublist ([] : List String)
      (([] : List (String × Contact)).map Prod.fst) ∧
    List.Nodup ([] : List String) :=
  c10_order_preserving "x" [] [] (by decide) (by rfl)

end Nrrdbook
